import Mathlib

/-!
Verification of the query-to-answer orchestration pipeline of a small RAG
chat application (vector search adapter, context formatter, answer
orchestrator).  The definitions below are a shallow embedding of
`src/retrieval/vector_store.py`, `src/retrieval/chains.py` and `app.py`:
pure string/list computations are translated directly, and the external
collaborators (embedding model, vector collection, LLM client) are passed
in as explicit parameters or outcome values.  Counters in the results
record how many times an external call site was reached.
-/

namespace TheLibrarian

/-- Metadata mapping attached to a stored document, modelled as an
association list from string keys to string values. -/
abbrev Metadata := List (String × String)

/-- A retrieved passage as built by `ChromaVectorStore.search`:
the dict with keys `content`, `metadata`, `score`, `distance`.
`distance` is `none` when the collection reported a null distance. -/
structure Doc where
  content : String
  metadata : Metadata
  score : ℚ
  distance : Option ℚ
  deriving DecidableEq

/-! ### Vector store (`src/retrieval/vector_store.py`) -/

/-- One formatted result row of `ChromaVectorStore.search`
(lines 61-68): `metadata or {}` defaults a null metadata to the empty
mapping, and the similarity score is `1.0 - distance` when the distance
is not null, else `0.0`. -/
def mkPassage (doc : String) (metadata : Option Metadata) (distance : Option ℚ) : Doc :=
  { content := doc
    metadata := metadata.getD []
    score := match distance with
      | some d => 1 - d
      | none => 0
    distance := distance }

/-- The result-formatting loop of `ChromaVectorStore.search`:
`zip(documents, metadatas, distances)` truncates to the shortest list,
and each triple becomes one formatted row. -/
def formatResults (documents : List String) (metadatas : List (Option Metadata))
    (distances : List (Option ℚ)) : List Doc :=
  (documents.zip (metadatas.zip distances)).map fun x => mkPassage x.1 x.2.1 x.2.2

/-- Python `k = k or settings.top_k`: both `None` and `0` are falsy,
so either falls back to the configured top-K. -/
def resolveK (k : Option Nat) (topK : Nat) : Nat :=
  match k with
  | none => topK
  | some v => if v = 0 then topK else v

/-- The query issued by `ChromaVectorStore.search` against the vector
collection: the embedding of the query text, `n_results`, and the
`include` field list (lines 49-53). -/
structure SearchRequest where
  queryEmbedding : List ℚ
  nResults : Nat
  includes : List String
  deriving DecidableEq

/-- The request `ChromaVectorStore.search` builds from its arguments.
`scoreThreshold` is accepted (line 40) but appears nowhere in the body. -/
def searchRequest (embed : String → List ℚ) (query : String) (k : Option Nat)
    (scoreThreshold : Option ℚ) (topK : Nat) : SearchRequest :=
  { queryEmbedding := embed query
    nResults := resolveK k topK
    includes := ["documents", "metadatas", "distances"] }

/-- `ChromaVectorStore.search` (lines 36-71): embed the query, issue the
collection query, format the parallel result arrays.  The collection is
modelled as a function from the issued request to the three parallel
arrays of the first result row. -/
def search (embed : String → List ℚ)
    (collectionQuery : SearchRequest → List String × List (Option Metadata) × List (Option ℚ))
    (query : String) (k : Option Nat) (scoreThreshold : Option ℚ) (topK : Nat) : List Doc :=
  let results := collectionQuery (searchRequest embed query k scoreThreshold topK)
  formatResults results.1 results.2.1 results.2.2

/-- The sample record built inside `get_collection_info`
(lines 98-101). -/
structure SampleData where
  content_preview : String
  metadata_keys : List String
  deriving DecidableEq

/-- The record returned by `get_collection_info`.  Optional fields model
dict keys: `none` means the key is absent, and for `sample_data`,
`some none` means the key is present with value `None`. -/
structure CollectionInfo where
  name : String
  count : Option Nat
  status : String
  sample_data : Option (Option SampleData)
  error : Option String
  deriving DecidableEq

/-- The external collection handle as used by `get_collection_info`:
the outcome of `count()` and the outcome of the sample `query(...)`
(its `documents` and `metadatas` parallel arrays), each of which may
raise. -/
structure Collection where
  countResult : Except String Nat
  sampleQueryResult : Except String (List (List String) × List (List Metadata))

/-- The inner sample extraction of `get_collection_info` (lines 95-101):
falsy checks on `documents` and `documents[0]`, an `IndexError` on
`metadatas[0]` when `metadatas` is empty is caught by the inner handler
(yielding no sample), `metadatas[0][0] if metadatas[0] else {}`, then the
100-character preview and the metadata key list. -/
def sampleFromResults (r : List (List String) × List (List Metadata)) : Option SampleData :=
  match r.1.head? with
  | none => none
  | some firstDocs =>
    match firstDocs.head? with
    | none => none
    | some sample_doc =>
      match r.2.head? with
      | none => none
      | some firstMetas =>
        let sample_metadata := firstMetas.headD []
        some { content_preview :=
                 if 100 < sample_doc.length then sample_doc.take 100 ++ "..." else sample_doc
               metadata_keys :=
                 if sample_metadata = [] then [] else sample_metadata.map Prod.fst }

/-- `ChromaVectorStore.get_collection_info` (lines 77-118).  The second
component counts how many sample queries were issued against the
collection. -/
def get_collection_info (c : Collection) (collection_name : String) : CollectionInfo × Nat :=
  match c.countResult with
  | .error e =>
    ({ name := collection_name
       count := none
       status := "error"
       sample_data := none
       error := some e }, 0)
  | .ok count =>
    if 0 < count then
      let sample_data : Option SampleData :=
        match c.sampleQueryResult with
        | .error _ => none
        | .ok r => sampleFromResults r
      ({ name := collection_name
         count := some count
         status := "connected"
         sample_data := some sample_data
         error := none }, 1)
    else
      ({ name := collection_name
         count := some count
         status := "connected"
         sample_data := some none
         error := none }, 0)

/-! ### RAG chain (`src/retrieval/chains.py`) -/

/-- Python `f"{score:.3f}"`: render a rational to three decimal places
(rounding to the nearest thousandth). -/
def formatScore3 (q : ℚ) : String :=
  let m : Int := round (q * 1000)
  let sign := if m < 0 then "-" else ""
  let a := m.natAbs
  let pad := if a % 1000 < 10 then "00" else if a % 1000 < 100 then "0" else ""
  sign ++ toString (a / 1000) ++ "." ++ pad ++ toString (a % 1000)

/-- The source annotation of `_format_context` (lines 52-56): prefer the
`story_title` metadata key, else the `source` key, else no annotation. -/
def storyInfo (metadata : Metadata) : String :=
  match metadata.lookup "story_title" with
  | some t => " (from '" ++ t ++ "')"
  | none =>
    match metadata.lookup "source" with
    | some s => " (from " ++ s ++ ")"
    | none => ""

/-- The number-independent part of one context block: annotation,
relevance score to three decimals, newline, passage content. -/
def mkBody (doc : Doc) : String :=
  storyInfo doc.metadata ++ " [Relevance: " ++ formatScore3 doc.score ++ "]:\n" ++ doc.content

/-- One context block of `_format_context` (lines 58-60):
`f"Passage {i}{story_info} [Relevance: {score:.3f}]:\n{content}"`. -/
def mkBlock (i : Nat) (doc : Doc) : String :=
  "Passage " ++ toString i ++ mkBody doc

/-- The `for i, doc in enumerate(documents, 1)` loop of `_format_context`
building `context_parts`. -/
def blockList (i : Nat) : List Doc → List String
  | [] => []
  | doc :: rest => mkBlock i doc :: blockList (i + 1) rest

/-- `BorgesRAGChain._format_context` (lines 40-62). -/
def formatContext (documents : List Doc) : String :=
  if documents = [] then "No relevant passages found in the collection."
  else String.intercalate "\n\n" (blockList 1 documents)

/-- One entry of the `sources` list built by `query` (lines 99-105). -/
structure SourceInfo where
  content_preview : String
  metadata : Metadata
  score : ℚ
  distance : Option ℚ
  deriving DecidableEq

/-- The per-document source record of `query` (line 100): content
truncated to 200 characters with an ellipsis when longer. -/
def mkSource (doc : Doc) : SourceInfo :=
  { content_preview :=
      if 200 < doc.content.length then doc.content.take 200 ++ "..." else doc.content
    metadata := doc.metadata
    score := doc.score
    distance := doc.distance }

/-- The result dict of `BorgesRAGChain.query`.  Optional fields model
dict keys that are absent on some branches: `num_sources` is absent on
the exception branch, `error` is absent on the success branches. -/
structure QueryResult where
  answer : String
  sources : List SourceInfo
  context_used : String
  num_sources : Option Nat
  error : Option String
  deriving DecidableEq

/-- `BORGES_PROMPT.format(context=..., question=...)` from
`src/prompts/templates.py`: the static template with its two slots
filled. -/
def borgesPromptFormat (context question : String) : String :=
  "You are The Librarian, an expert on the works of Jorge Luis Borges. You have access to a vast collection of his stories and possess deep knowledge of his themes, symbolism, and literary techniques.\n\nYour personality and approach:\n- Speak with the erudite yet accessible voice befitting a scholar of Borges\n- Draw connections between stories, themes, and philosophical concepts\n- Reference specific passages when relevant to illuminate your points\n- Embrace the labyrinthine nature of knowledge that Borges so loved\n- Be precise in your literary analysis while remaining engaging\n\nWhen answering questions:\n1. Ground your responses in the retrieved text passages\n2. Provide specific examples and quotations when possible\n3. Explain the broader significance within Borges' literary universe\n4. Make connections to recurring Borgesian themes (infinity, mirrors, labyrinths, time, identity)\n\nContext from Borges' stories:\n"
    ++ context ++ "\n\nQuestion: " ++ question ++ "\n\nYour response as The Librarian:"

/-- The outcome of `self.vector_store.search(question)` inside `query`:
either the retrieved documents, or the message of the exception the
search raised. -/
inductive SearchOutcome where
  | ok (docs : List Doc)
  | err (msg : String)

/-- The outcome of the LLM step of `query` (`_get_llm` plus
`llm.invoke(...)` plus content extraction): either the answer text, or
the message of the exception raised. -/
inductive LLMOutcome where
  | ok (answer : String)
  | err (msg : String)

/-- The fixed no-results answer of `query` (line 74). -/
def noResultsAnswer : String :=
  "I couldn't find relevant passages in the Borges collection to answer your question. Could you try rephrasing or asking about a different aspect of his work?"

/-- The templated apology of the exception handler of `query`
(line 119). -/
def apologyAnswer (msg : String) : String :=
  "I encountered an error while processing your question: " ++ msg ++ ". Please try again."

/-- The result dict returned by the exception handler of `query`
(lines 118-123): no `num_sources` key. -/
def errorResult (msg : String) : QueryResult :=
  { answer := apologyAnswer msg
    sources := []
    context_used := ""
    num_sources := none
    error := some msg }

/-- `BorgesRAGChain.query` (lines 64-123).  The search and LLM call
sites are modelled by their outcomes (`searchResult` is what
`self.vector_store.search(question)` did; `llm` maps the formatted
prompt to what the LLM step did).  The second component counts how many
times the LLM step was reached. -/
def runQuery (searchResult : SearchOutcome) (llm : String → LLMOutcome)
    (question : String) : QueryResult × Nat :=
  match searchResult with
  | .err msg => (errorResult msg, 0)
  | .ok documents =>
    if documents = [] then
      ({ answer := noResultsAnswer
         sources := []
         context_used := ""
         num_sources := some 0
         error := none }, 0)
    else
      let context := formatContext documents
      let formatted_prompt := borgesPromptFormat context question
      match llm formatted_prompt with
      | .err msg => (errorResult msg, 1)
      | .ok answer =>
        ({ answer := answer
           sources := documents.map mkSource
           context_used := context
           num_sources := some documents.length
           error := none }, 1)

/-! ### Gradio app layer (`app.py`) -/

/-- Python `message.strip()`: drop leading and trailing whitespace. -/
def pyStrip (s : String) : String :=
  ⟨((s.data.dropWhile Char.isWhitespace).reverse.dropWhile Char.isWhitespace).reverse⟩

/-- `chat_with_librarian` (app.py lines 32-51) with the components
initialized.  The second component counts how many times
`rag_chain.query` — and hence the vector store's `search` — was
reached. -/
def chat_with_librarian (searchResult : SearchOutcome) (llm : String → LLMOutcome)
    (message : String) : String × Nat :=
  if pyStrip message = "" then
    ("Please ask me something about Jorge Luis Borges' works.", 0)
  else
    let result := (runQuery searchResult llm message).1
    match result.error with
    | some e => ("I apologize, but I encountered an issue: " ++ e, 1)
    | none => (result.answer, 1)

/-! ### Helper lemmas -/

/-- Each block of the context is determined by its position and the
passage at that position in the input. -/
theorem blockList_getElem? (n : Nat) (docs : List Doc) (i : Nat) :
    (blockList n docs)[i]? = docs[i]?.map fun d => mkBlock (n + i) d := by
  induction docs generalizing n i with
  | nil => simp [blockList]
  | cons d rest ih =>
    cases i with
    | zero => simp [blockList]
    | succ j =>
      have harith : n + 1 + j = n + (j + 1) := by omega
      simp [blockList, ih (n + 1) j, harith]

/-- The context has exactly one block per input passage. -/
theorem blockList_length (n : Nat) (docs : List Doc) :
    (blockList n docs).length = docs.length := by
  induction docs generalizing n with
  | nil => rfl
  | cons d rest ih => simp [blockList, ih (n + 1)]

/-- Character count of a string prefix. -/
theorem string_length_take (s : String) (n : Nat) : (s.take n).length = min n s.length := by
  rw [← String.length_data, String.data_take, List.length_take, String.length_data]

/-- The exception-branch apology answer of `query` contains the
exception message as a substring. -/
theorem apologyAnswer_contains_msg (m : String) :
    ∃ s t, s ++ m.data ++ t = (apologyAnswer m).data := by
  refine ⟨"I encountered an error while processing your question: ".data,
    ". Please try again.".data, ?_⟩
  simp [apologyAnswer]

/-- The result built by the exception handler of `query`: templated
apology answer containing the message, empty sources, `error` set. -/
def isApologyFor (r : QueryResult) (m : String) : Prop :=
  r.answer = apologyAnswer m ∧ r.sources = [] ∧ r.error = some m ∧
    ∃ s t, s ++ m.data ++ t = r.answer.data

/-! ### Claims -/

/-- C1 (amended): `query` returns `num_sources` present and equal to
`len(sources)` on the success and empty-retrieval branches, and the
`num_sources` key is absent on the exception-recovery branch (where
`sources` is empty anyway). -/
theorem num_sources_matches_sources_length (s : SearchOutcome) (llm : String → LLMOutcome)
    (q : String) :
    (runQuery s llm q).1.num_sources =
      if (runQuery s llm q).1.error = none then some (runQuery s llm q).1.sources.length
      else none := by
  cases s with
  | err m => rfl
  | ok docs =>
    match docs with
    | [] => rfl
    | d :: rest =>
      cases hllm : llm (borgesPromptFormat (formatContext (d :: rest)) q) with
      | err m => simp [runQuery, hllm, errorResult]
      | ok a => simp [runQuery, hllm]

/-- C1 (counterexample to the claim as stated): on the
exception-recovery branch the `num_sources` key is absent from the
result, so it is not present and equal to `len(sources)` in every
branch. -/
theorem num_sources_absent_on_exception :
    ((runQuery (SearchOutcome.err "boom") (fun _ => LLMOutcome.ok "ans") "why").1.num_sources).isSome
      = false := rfl

/-- C2: when the vector store search returns no documents, `query`
returns the fixed no-results answer with empty context, empty sources
and zero `num_sources`, and the LLM step is never reached. -/
theorem empty_retrieval_short_circuit (llm : String → LLMOutcome) (q : String) :
    runQuery (SearchOutcome.ok []) llm q =
      ({ answer := noResultsAnswer
         sources := []
         context_used := ""
         num_sources := some 0
         error := none }, 0) := rfl

/-- C3: when the search raises, or when the LLM step raises on a
non-empty retrieval, `query` does not propagate the exception: it
returns the templated apology containing the exception message as a
substring, with empty sources and `error` set to the message. -/
theorem query_exception_recovery (q msg msg2 : String) (llm : String → LLMOutcome)
    (docs : List Doc) (hdocs : docs ≠ [])
    (hllm : llm (borgesPromptFormat (formatContext docs) q) = LLMOutcome.err msg2) :
    isApologyFor (runQuery (SearchOutcome.err msg) llm q).1 msg ∧
    isApologyFor (runQuery (SearchOutcome.ok docs) llm q).1 msg2 := by
  constructor
  · exact ⟨rfl, rfl, rfl, apologyAnswer_contains_msg msg⟩
  · have hrun : (runQuery (SearchOutcome.ok docs) llm q).1 = errorResult msg2 := by
      simp [runQuery, if_neg hdocs, hllm]
    rw [hrun]
    exact ⟨rfl, rfl, rfl, apologyAnswer_contains_msg msg2⟩

/-- C3 witness: a concrete search failure and a concrete LLM failure,
both recovered into apology results. -/
theorem query_exception_recovery_witness :
    isApologyFor (runQuery (SearchOutcome.err "boom")
      (fun _ => LLMOutcome.err "kaboom") "q").1 "boom" ∧
    isApologyFor (runQuery (SearchOutcome.ok [⟨"content", [], 9/10, some (1/10)⟩])
      (fun _ => LLMOutcome.err "kaboom") "q").1 "kaboom" :=
  query_exception_recovery "q" "boom" "kaboom" _ _ (List.cons_ne_nil _ _) rfl

/-- C4: every passage built by the search result formatting carries
`score = 1 - distance` when the distance is defined and `score = 0`
when it is null; in particular distances `[0.1, 0.3, 0.5]` yield scores
`[0.9, 0.7, 0.5]`. -/
theorem search_score_derivation :
    (∀ (docsA : List String) (metas : List (Option Metadata)) (dists : List (Option ℚ))
      (p : Doc), p ∈ formatResults docsA metas dists →
        p.score = match p.distance with
          | some d => 1 - d
          | none => 0) ∧
    (formatResults ["a", "b", "c"] [some [], some [], some []]
        [some (1/10), some (3/10), some (5/10)]).map Doc.score = [9/10, 7/10, 5/10] := by
  constructor
  · intro docsA metas dists p hp
    simp only [formatResults, List.mem_map] at hp
    obtain ⟨⟨a, b, c⟩, -, rfl⟩ := hp
    cases c <;> rfl
  · simp [formatResults, mkPassage]
    norm_num

/-- C4 witness: the score-derivation law at a concrete one-row result
with distance 0.1. -/
theorem search_score_derivation_witness :
    (mkPassage "a" (some []) (some (1/10))).score =
      match (mkPassage "a" (some []) (some (1/10))).distance with
      | some d => 1 - d
      | none => 0 :=
  search_score_derivation.1 ["a"] [some []] [some (1/10)] _ (by simp [formatResults])

/-- C5: the sources built by `query` on a successful run are one record
per retrieved document, and each content preview is the full content
when it has at most 200 characters, else exactly the first 200
characters followed by an ellipsis, for a total length of 203. -/
theorem source_preview_truncation (docs : List Doc) (q ans : String)
    (llm : String → LLMOutcome) (hdocs : docs ≠ [])
    (hllm : llm (borgesPromptFormat (formatContext docs) q) = LLMOutcome.ok ans) :
    (runQuery (SearchOutcome.ok docs) llm q).1.sources = docs.map mkSource ∧
    ∀ d ∈ docs,
      (200 < d.content.length →
        (mkSource d).content_preview.length = 203 ∧
        (mkSource d).content_preview.data = d.content.data.take 200 ++ "...".data) ∧
      (d.content.length ≤ 200 → (mkSource d).content_preview = d.content) := by
  constructor
  · simp [runQuery, if_neg hdocs, hllm]
  · intro d _
    constructor
    · intro hlong
      have hpre : (mkSource d).content_preview = d.content.take 200 ++ "..." := by
        simp [mkSource, if_pos hlong]
      constructor
      · rw [hpre]
        have hlen : (d.content.take 200).length = 200 := by
          rw [string_length_take]
          omega
        have h3 : ("..." : String).length = 3 := rfl
        simp [String.length_append, hlen, h3]
      · rw [hpre, String.data_append, String.data_take]
    · intro hshort
      simp [mkSource, Nat.not_lt.mpr hshort]

/-- C5 witness: a two-document retrieval in which one content is 201
characters long and the other is short. -/
theorem source_preview_truncation_witness :
    ((runQuery (SearchOutcome.ok [⟨String.mk (List.replicate 201 'x'), [], 9/10, some (1/10)⟩,
        ⟨"short", [], 7/10, some (3/10)⟩]) (fun _ => LLMOutcome.ok "ans") "q").1.sources =
      [⟨String.mk (List.replicate 201 'x'), [], 9/10, some (1/10)⟩,
        ⟨"short", [], 7/10, some (3/10)⟩].map mkSource) ∧
    ∀ d ∈ [(⟨String.mk (List.replicate 201 'x'), [], 9/10, some (1/10)⟩ : Doc),
        ⟨"short", [], 7/10, some (3/10)⟩],
      (200 < d.content.length →
        (mkSource d).content_preview.length = 203 ∧
        (mkSource d).content_preview.data = d.content.data.take 200 ++ "...".data) ∧
      (d.content.length ≤ 200 → (mkSource d).content_preview = d.content) :=
  source_preview_truncation _ "q" "ans" _ (List.cons_ne_nil _ _) rfl

/-- A sample passage carrying a `story_title` metadata key. -/
def sampleDocA : Doc := ⟨"body text", [("story_title", "The Aleph")], 9/10, some (1/10)⟩

/-- A sample passage carrying a `source` metadata key. -/
def sampleDocB : Doc := ⟨"second", [("source", "file.txt")], 7/10, some (3/10)⟩

/-- C6: the context formatter returns the fixed placeholder on empty
input; on non-empty input it joins one block per passage with a blank
line, where block `i` (1-indexed, input order) consists of the passage
number, the source annotation (from `story_title`, else `source`, else
none), the score to three decimal places, and the passage content. -/
theorem format_context_spec :
    formatContext [] = "No relevant passages found in the collection." ∧
    ∀ docs : List Doc, docs ≠ [] →
      formatContext docs = String.intercalate "\n\n" (blockList 1 docs) ∧
      (blockList 1 docs).length = docs.length ∧
      (∀ i : Nat, (blockList 1 docs)[i]? = docs[i]?.map fun d => mkBlock (i + 1) d) ∧
      (∀ (j : Nat) (d : Doc), mkBlock j d = "Passage " ++ toString j ++ storyInfo d.metadata
        ++ " [Relevance: " ++ formatScore3 d.score ++ "]:\n" ++ d.content) := by
  refine ⟨rfl, fun docs hdocs => ⟨by simp [formatContext, hdocs], blockList_length 1 docs,
    fun i => ?_, fun j d => ?_⟩⟩
  · rw [blockList_getElem? 1 docs i]
    simp [Nat.add_comm]
  · simp [mkBlock, mkBody, String.append_assoc]

/-- C6 witness: the block structure at a concrete two-passage input. -/
theorem format_context_spec_witness :
    formatContext [sampleDocA, sampleDocB]
        = String.intercalate "\n\n" (blockList 1 [sampleDocA, sampleDocB]) ∧
    (blockList 1 [sampleDocA, sampleDocB]).length = [sampleDocA, sampleDocB].length ∧
    (∀ i : Nat, (blockList 1 [sampleDocA, sampleDocB])[i]?
        = [sampleDocA, sampleDocB][i]?.map fun d => mkBlock (i + 1) d) ∧
    (∀ (j : Nat) (d : Doc), mkBlock j d = "Passage " ++ toString j ++ storyInfo d.metadata
        ++ " [Relevance: " ++ formatScore3 d.score ++ "]:\n" ++ d.content) :=
  (format_context_spec.2 [sampleDocA, sampleDocB] (List.cons_ne_nil _ _))

/-- C7: context formatting is a deterministic function of its input;
permuting the input permutes the block bodies identically (the bodies
of a permuted input form the same multiset), and the numbered block at
position `i` is always built from the input passage at position `i`,
carrying the 1-based number `i + 1`. -/
theorem format_context_order :
    (∀ d1 d2 : List Doc, d1 = d2 → formatContext d1 = formatContext d2) ∧
    (∀ docs docs2 : List Doc, docs.Perm docs2 → (docs.map mkBody).Perm (docs2.map mkBody)) ∧
    (∀ (docs : List Doc) (i : Nat),
      (blockList 1 docs)[i]? = docs[i]?.map fun d => mkBlock (i + 1) d) ∧
    (∀ (j : Nat) (d : Doc), mkBlock j d = "Passage " ++ toString j ++ mkBody d) := by
  refine ⟨fun d1 d2 h => congrArg formatContext h,
    fun docs docs2 h => h.map mkBody, fun docs i => ?_, fun j d => rfl⟩
  rw [blockList_getElem? 1 docs i]
  simp [Nat.add_comm]

/-- C7 witness: swapping two concrete passages permutes the block
bodies. -/
theorem format_context_order_witness :
    ([sampleDocA, sampleDocB].map mkBody).Perm ([sampleDocB, sampleDocA].map mkBody) :=
  format_context_order.2.1 _ _ (List.Perm.swap sampleDocB sampleDocA [])

/-- C8: for every empty or whitespace-only message, the chat function
returns the short-circuit prompting message and the query pipeline —
hence the vector store's `search` — is never reached. -/
theorem blank_message_short_circuit (searchResult : SearchOutcome)
    (llm : String → LLMOutcome) (message : String)
    (h : ∀ c ∈ message.data, c.isWhitespace) :
    chat_with_librarian searchResult llm message =
      ("Please ask me something about Jorge Luis Borges' works.", 0) := by
  have hstrip : pyStrip message = "" := by
    unfold pyStrip
    rw [List.dropWhile_eq_nil_iff.mpr h]
    rfl
  unfold chat_with_librarian
  rw [if_pos hstrip]

/-- C8 witness: a whitespace-only message and the empty message both
short-circuit without a search. -/
theorem blank_message_short_circuit_witness :
    chat_with_librarian (SearchOutcome.ok []) (fun _ => LLMOutcome.ok "x") " \t\n " =
      ("Please ask me something about Jorge Luis Borges' works.", 0) :=
  blank_message_short_circuit _ _ " \t\n " (by decide)

/-- C9 (amended): on a collection whose `count()` is 0,
`get_collection_info` returns status `"connected"` and count 0 and
issues no sample query, but the `sample_data` key is present with a
null value, not absent. -/
theorem empty_collection_info (name : String)
    (sq : Except String (List (List String) × List (List Metadata))) :
    get_collection_info ⟨Except.ok 0, sq⟩ name =
      ({ name := name
         count := some 0
         status := "connected"
         sample_data := some none
         error := none }, 0) := rfl

/-- C9 (counterexample to the claim as stated): at `count() = 0` the
returned record does contain the `sample_data` key (with value `None`),
so the key is not absent. -/
theorem sample_data_key_present_at_zero_count :
    (get_collection_info ⟨Except.ok 0, Except.ok ([], [])⟩ "borges_stories").1.sample_data
      ≠ none := by
  simp [get_collection_info]

/-- C10: the `score_threshold` parameter of `search` has no effect:
for any two threshold values (including absent) the issued collection
query and the returned passage list are identical. -/
theorem score_threshold_no_effect (embed : String → List ℚ)
    (cq : SearchRequest → List String × List (Option Metadata) × List (Option ℚ))
    (query : String) (k : Option Nat) (t1 t2 : Option ℚ) (topK : Nat) :
    searchRequest embed query k t1 topK = searchRequest embed query k t2 topK ∧
    search embed cq query k t1 topK = search embed cq query k t2 topK :=
  ⟨rfl, rfl⟩

end TheLibrarian
